import Mathlib

/-!
Shallow embedding of the log-service repository (TypeScript, AWS Lambda +
DynamoDB): the input validator (`src/utils/validator.ts`), the Ingest Lambda
handler and the ReadRecent Lambda handler (`src/lambdas/.../index.ts`), over a
small model of JavaScript runtime values and of the DynamoDB table with its
timestamp-ordered global secondary index.
-/

namespace LogService

/-- Model of a JavaScript runtime value, as far as the validator and the
handlers inspect one: `null`, `undefined`, booleans, numbers, strings, plain
objects (association list of named fields) and arrays. -/
inductive JsValue where
  | nul
  | undefined
  | bool (b : Bool)
  | num (n : Int)
  | str (s : String)
  | obj (fields : List (String × JsValue))
  | arr (elems : List JsValue)
deriving Repr, Inhabited

/-- JavaScript truthiness: `null`, `undefined`, `false`, `0` and the empty
string are falsy; every object and every array is truthy. -/
def truthy : JsValue → Bool
  | .nul => false
  | .undefined => false
  | .bool b => b
  | .num n => n != 0
  | .str s => !s.isEmpty
  | .obj _ => true
  | .arr _ => true

/-- The JavaScript `typeof` operator (note `typeof null` is `"object"`, and
`typeof` of an array is `"object"` as well). -/
def typeof : JsValue → String
  | .nul => "object"
  | .undefined => "undefined"
  | .bool _ => "boolean"
  | .num _ => "number"
  | .str _ => "string"
  | .obj _ => "object"
  | .arr _ => "object"

/-- Property access `v.k`: a named field of a plain object, `undefined` when
the field is missing or the value is not a plain object (a named, non-index
property read on an array or primitive yields `undefined`). -/
def getField : JsValue → String → JsValue
  | .obj fields, k =>
    match List.lookup k fields with
    | some v => v
    | none => .undefined
  | _, _ => .undefined

/-- The JavaScript built-in `String.prototype.trim`: removes leading and
trailing whitespace characters. -/
def jsTrim (s : String) : String :=
  String.mk (((s.data.dropWhile Char.isWhitespace).reverse.dropWhile Char.isWhitespace).reverse)

/-- `VALID_SEVERITIES` from `src/utils/validator.ts`. -/
def VALID_SEVERITIES : List String := ["info", "warning", "error"]

/-- `VALID_SEVERITIES.includes(x)`: array membership by strict equality, so it
holds only for a string value equal to one of the three severities. -/
def severityIncluded (v : JsValue) : Bool :=
  match v with
  | .str s => VALID_SEVERITIES.contains s
  | _ => false

/-- `ValidationResult` from `src/utils/validator.ts`. -/
structure ValidationResult where
  isValid : Bool
  error : Option String
deriving Repr, DecidableEq

/-- `validateLogInput` from `src/utils/validator.ts`, translated check by
check in source order: not-an-object, falsy `severity`, severity not in the
enum, falsy `message`, `message` not a string, `message` trims to empty. -/
def validateLogInput (input : JsValue) : ValidationResult :=
  if !truthy input || typeof input != "object" then
    ⟨false, some ("Request body must be a valid JSON object")⟩
  else if !truthy (getField input ("severity")) then
    ⟨false, some ("Missing required field: severity")⟩
  else if !severityIncluded (getField input ("severity")) then
    ⟨false, some ("Invalid severity. Must be one of: " ++ String.intercalate (", ") VALID_SEVERITIES)⟩
  else if !truthy (getField input ("message")) then
    ⟨false, some ("Missing required field: message")⟩
  else if typeof (getField input ("message")) != "string" then
    ⟨false, some ("Message must be a string")⟩
  else if (match getField input ("message") with
           | .str s => (jsTrim s).length == 0
           | _ => false) then
    ⟨false, some ("Message cannot be empty")⟩
  else
    ⟨true, none⟩

/-- `LogEntry` from `src/models/log-entry.ts`: the DynamoDB item shape. -/
structure LogEntry where
  logId : String
  timestamp : String
  severity : String
  message : String
  logType : String
deriving Repr, DecidableEq

/-- Marshal a JavaScript value into a string attribute. In the handlers this
is applied only to `body.severity` and `body.message` after `validateLogInput`
succeeded, where both are guaranteed to be string values. -/
def jsToString : JsValue → String
  | .str s => s
  | _ => ""

/-- The DynamoDB table state: the stored items in insertion order. -/
abbrev Store := List LogEntry

/-- The ReadRecent handler's `QueryCommand` on the global secondary index
(partition key `logType`, sort key `timestamp`):
`KeyConditionExpression: logType = :logType` selects the matching items,
the index orders them by the sort key (`ScanIndexForward: false` reverses to
descending `timestamp`), and `Limit` bounds the page size. -/
def queryRecent (store : Store) (group : String) (limit : Nat) : List LogEntry :=
  ((store.filter (fun e => e.logType == group)).mergeSort
      (fun a b => decide (b.timestamp ≤ a.timestamp))).take limit

/-- The HTTP response of the ReadRecent handler: status code plus the fields
of the JSON body (`count`, `logs`, and `error` which is present only on the
failure path). -/
structure ReadRecentHttp where
  statusCode : Nat
  count : Nat
  logs : List LogEntry
  error : Option String
deriving Repr, DecidableEq

/-- The ReadRecent Lambda handler (`src/lambdas/read-recent/index.ts`).
`storageOk` is whether the DynamoDB `send` succeeds; when it does, the handler
returns status 200 with `count = logs.length` over the query result, and when
it throws, the `catch` block returns status 500 with
`{count: 0, logs: [], error: 'Internal server error'}`. -/
def readRecentHandler (store : Store) (storageOk : Bool) : ReadRecentHttp :=
  if storageOk then
    let logs := queryRecent store ("LOG") 100
    { statusCode := 200, count := logs.length, logs := logs, error := none }
  else
    { statusCode := 500, count := 0, logs := [], error := some ("Internal server error") }

/-- The HTTP response of the Ingest handler: status code plus the fields of
the JSON body (`success`, optional `message`, and on success the assigned
`logId` and `timestamp`). -/
structure IngestHttp where
  statusCode : Nat
  success : Bool
  message : Option String
  logId : Option String
  timestamp : Option String
deriving Repr, DecidableEq

/-- `JSON.parse(event.body || '{}')`: an absent body, or an empty-string body
(both falsy), is replaced by the literal `'{}'` before parsing. -/
def effectiveBody (body : Option String) : String :=
  match body with
  | none => ("\x7b\x7d")
  | some s => if s.isEmpty then ("\x7b\x7d") else s

/-- The Ingest Lambda handler (`src/lambdas/ingest/index.ts`), with its
runtime collaborators passed explicitly: `jsonParse` models `JSON.parse`
(`none` = throws a parse error), `genId` the `uuidv4()` call, `now` the
`new Date().toISOString()` call, and `putError` the DynamoDB `PutCommand`
outcome (`some detail` = `send` throws with that diagnostic detail, caught by
the outer `catch`). Returns the HTTP response and the table state after the
call. -/
def ingestHandler (jsonParse : String → Option JsValue) (genId now : String)
    (putError : Option String) (store : Store) (body : Option String) :
    IngestHttp × Store :=
  match jsonParse (effectiveBody body) with
  | none =>
    ({ statusCode := 400, success := false,
       message := some ("Invalid JSON in request body"),
       logId := none, timestamp := none }, store)
  | some v =>
    let validation := validateLogInput v
    if !validation.isValid then
      ({ statusCode := 400, success := false, message := validation.error,
         logId := none, timestamp := none }, store)
    else
      let logEntry : LogEntry :=
        { logId := genId, timestamp := now,
          severity := jsToString (getField v ("severity")),
          message := jsToString (getField v ("message")),
          logType := "LOG" }
      match putError with
      | some _ =>
        ({ statusCode := 500, success := false,
           message := some ("Internal server error"),
           logId := none, timestamp := none }, store)
      | none =>
        ({ statusCode := 200, success := true, message := none,
           logId := some logEntry.logId, timestamp := some logEntry.timestamp },
         store ++ [logEntry])

/-- A value accepted by the severity membership check is a nonempty string,
hence truthy. -/
theorem truthy_of_severityIncluded {v : JsValue} (h : severityIncluded v = true) :
    truthy v = true := by
  cases v <;> simp [severityIncluded, VALID_SEVERITIES] at h ⊢
  rcases h with h | h | h <;> subst h <;> decide

/-- Claim C1: for every state of the store, the recent-records query returns
records whose group (`logType`) equals the constant discriminator `"LOG"`, all
drawn from the store, ordered by timestamp descending, at most 100 of them;
and when the store holds at most 100 such records, every one of them is
returned. -/
theorem C1_queryRecent_spec (store : Store) :
    (queryRecent store ("LOG") 100).length ≤ 100 ∧
    (∀ e ∈ queryRecent store ("LOG") 100, e.logType = "LOG" ∧ e ∈ store) ∧
    List.Pairwise (fun a b => b.timestamp ≤ a.timestamp) (queryRecent store ("LOG") 100) ∧
    ((store.filter (fun e => e.logType == "LOG")).length ≤ 100 →
      ∀ e ∈ store, e.logType = "LOG" → e ∈ queryRecent store ("LOG") 100) := by
  have hperm := List.mergeSort_perm (store.filter (fun e => e.logType == "LOG"))
    (fun a b : LogEntry => decide (b.timestamp ≤ a.timestamp))
  refine ⟨List.length_take_le _ _, ?_, ?_, ?_⟩
  · intro e he
    have hem := List.mem_of_mem_take he
    have hel := hperm.mem_iff.mp hem
    have hsp := List.mem_filter.mp hel
    exact ⟨beq_iff_eq.mp hsp.2, hsp.1⟩
  · have hsorted := @List.sorted_mergeSort LogEntry
      (fun a b : LogEntry => decide (b.timestamp ≤ a.timestamp))
      (fun a b c hab hbc => by
        simp only [decide_eq_true_eq] at hab hbc ⊢
        exact le_trans hbc hab)
      (fun a b => by
        rcases le_total a.timestamp b.timestamp with h | h <;> simp [h])
      (store.filter (fun e => e.logType == "LOG"))
    exact (List.Pairwise.sublist (List.take_sublist _ _) hsorted).imp
      (fun h => of_decide_eq_true h)
  · intro hlen e hes het
    have hel : e ∈ store.filter (fun e => e.logType == "LOG") :=
      List.mem_filter.mpr ⟨hes, beq_iff_eq.mpr het⟩
    have hml := hperm.length_eq
    have htake := List.take_of_length_le (hml ▸ hlen)
    show e ∈ List.take 100 _
    rw [htake]
    exact hperm.mem_iff.mpr hel

/-- A sample stored record used by several witnesses. -/
def demoEntry : LogEntry :=
  { logId := "a1", timestamp := "2024-01-01T00:00:00.000Z", severity := "info",
    message := "boot", logType := "LOG" }

/-- A sample one-record table state used by several witnesses. -/
def demoStore : Store := [demoEntry]

/-- Witness for C1 at a concrete one-element store. -/
theorem C1_queryRecent_witness :
    (queryRecent demoStore ("LOG") 100).length ≤ 100 ∧
    demoEntry ∈ queryRecent demoStore ("LOG") 100 :=
  ⟨(C1_queryRecent_spec demoStore).1,
   (C1_queryRecent_spec demoStore).2.2.2 (by decide) demoEntry (by simp [demoStore]) rfl⟩

/-- Claim C2: whenever the parsed request payload fails validation, the ingest
handler answers with success `false` and status 400, and the table state is
unchanged (no storage write). -/
theorem C2_validation_failure_no_write (jsonParse : String → Option JsValue)
    (genId now : String) (putError : Option String) (store : Store)
    (body : Option String) (v : JsValue)
    (hparse : jsonParse (effectiveBody body) = some v)
    (hinvalid : (validateLogInput v).isValid = false) :
    (ingestHandler jsonParse genId now putError store body).1.success = false ∧
    (ingestHandler jsonParse genId now putError store body).1.statusCode = 400 ∧
    (ingestHandler jsonParse genId now putError store body).2 = store := by
  unfold ingestHandler
  rw [hparse]
  simp [hinvalid]

/-- Witness for C2: a whitespace-only message is rejected and nothing is
stored. -/
theorem C2_witness :
    (ingestHandler (fun _ => some (.obj [("severity", .str "info"), ("message", .str "  ")]))
        ("id1") ("t1") none [demoEntry] none).1.success = false ∧
    (ingestHandler (fun _ => some (.obj [("severity", .str "info"), ("message", .str "  ")]))
        ("id1") ("t1") none [demoEntry] none).1.statusCode = 400 ∧
    (ingestHandler (fun _ => some (.obj [("severity", .str "info"), ("message", .str "  ")]))
        ("id1") ("t1") none [demoEntry] none).2 = [demoEntry] :=
  C2_validation_failure_no_write _ ("id1") ("t1") none [demoEntry] none _ rfl (by decide)

/-- Claim C3: on every successful ingest, the stored record's `logId` and
`timestamp` are exactly the id generator's and the clock's outputs — never
taken from the payload, whatever fields the payload contains — and the
response echoes those server-generated values. -/
theorem C3_server_generated_identity (jsonParse : String → Option JsValue)
    (genId now : String) (store : Store) (body : Option String) (v : JsValue)
    (hparse : jsonParse (effectiveBody body) = some v)
    (hvalid : (validateLogInput v).isValid = true) :
    (ingestHandler jsonParse genId now none store body).2 =
      store ++ [{ logId := genId, timestamp := now,
                  severity := jsToString (getField v ("severity")),
                  message := jsToString (getField v ("message")),
                  logType := "LOG" }] ∧
    (ingestHandler jsonParse genId now none store body).1.logId = some genId ∧
    (ingestHandler jsonParse genId now none store body).1.timestamp = some now := by
  unfold ingestHandler
  rw [hparse]
  simp [hvalid]

/-- A payload that tries to smuggle in its own `logId` and `timestamp`. -/
def conflictPayload : JsValue :=
  .obj [("severity", .str "warning"), ("message", .str "disk full"),
        ("logId", .str "attacker-id"), ("timestamp", .str "1999-12-31")]

/-- Witness for C3: even though the payload carries `logId` and `timestamp`
fields, the stored record uses the server-generated values. -/
theorem C3_witness :
    (ingestHandler (fun _ => some conflictPayload) ("srv-id")
        ("2026-10-11T00:00:00.000Z") none [] none).2 =
      [{ logId := "srv-id", timestamp := "2026-10-11T00:00:00.000Z",
         severity := jsToString (getField conflictPayload ("severity")),
         message := jsToString (getField conflictPayload ("message")),
         logType := "LOG" }] ∧
    (ingestHandler (fun _ => some conflictPayload) ("srv-id")
        ("2026-10-11T00:00:00.000Z") none [] none).1.logId = some ("srv-id") ∧
    (ingestHandler (fun _ => some conflictPayload) ("srv-id")
        ("2026-10-11T00:00:00.000Z") none [] none).1.timestamp =
      some ("2026-10-11T00:00:00.000Z") :=
  C3_server_generated_identity _ ("srv-id") ("2026-10-11T00:00:00.000Z") [] none
    conflictPayload rfl (by decide)

/-- Claim C4 as frozen is false on the code: with a valid severity and a
message field present but falsy and non-text (the number `0`), ingest reports
the missing-message error, not the message-must-be-text error, because the
validator's falsiness check runs before its type check. -/
theorem C4_counterexample :
    (ingestHandler (fun _ => some (.obj [("severity", .str "info"), ("message", .num 0)]))
        ("id0") ("t0") none [] none).1.message =
      some ("Missing required field: message") ∧
    (ingestHandler (fun _ => some (.obj [("severity", .str "info"), ("message", .num 0)]))
        ("id0") ("t0") none [] none).1.message ≠
      some ("Message must be a string") := by
  constructor <;> decide

/-- With a valid severity and a truthy non-text message, the validator fails
with exactly the message-must-be-text error. -/
theorem validator_message_type_error (fields : List (String × JsValue))
    (hsev : severityIncluded (getField (.obj fields) ("severity")) = true)
    (hmsg : truthy (getField (.obj fields) ("message")) = true)
    (htype : typeof (getField (.obj fields) ("message")) ≠ "string") :
    validateLogInput (.obj fields) =
      { isValid := false, error := some ("Message must be a string") } := by
  have hst := truthy_of_severityIncluded hsev
  have c1 : (!truthy (.obj fields) || typeof (.obj fields) != "object") = false := by
    simp [truthy, typeof]
  have c2 : (!truthy (getField (.obj fields) ("severity"))) = false := by
    rw [hst]; rfl
  have c3 : (!severityIncluded (getField (.obj fields) ("severity"))) = false := by
    rw [hsev]; rfl
  have c4 : (!truthy (getField (.obj fields) ("message"))) = false := by
    rw [hmsg]; rfl
  have c5 : (typeof (getField (.obj fields) ("message")) != "string") = true := by
    simp [bne_iff_ne]
    exact htype
  simp only [validateLogInput, c1, c2, c3, c4, c5]
  simp

/-- Claim C4 amended: for every payload that is a structured object with a
valid severity whose message field is truthy (so in particular present) yet
not of text type, ingest rejects the request with exactly the
message-must-be-text error, status 400, and no storage write. -/
theorem C4_message_type_error (jsonParse : String → Option JsValue)
    (genId now : String) (putError : Option String) (store : Store)
    (body : Option String) (fields : List (String × JsValue))
    (hparse : jsonParse (effectiveBody body) = some (.obj fields))
    (hsev : severityIncluded (getField (.obj fields) ("severity")) = true)
    (hmsg : truthy (getField (.obj fields) ("message")) = true)
    (htype : typeof (getField (.obj fields) ("message")) ≠ "string") :
    (ingestHandler jsonParse genId now putError store body).1 =
      { statusCode := 400, success := false,
        message := some ("Message must be a string"),
        logId := none, timestamp := none } ∧
    (ingestHandler jsonParse genId now putError store body).2 = store := by
  have hv := validator_message_type_error fields hsev hmsg htype
  unfold ingestHandler
  rw [hparse]
  simp [hv]

/-- Witness for C4 (amended): a numeric, nonzero message. -/
theorem C4_witness :
    (ingestHandler (fun _ => some (.obj [("severity", .str "warning"), ("message", .num 42)]))
        ("id5") ("t5") none [] none).1 =
      { statusCode := 400, success := false,
        message := some ("Message must be a string"),
        logId := none, timestamp := none } ∧
    (ingestHandler (fun _ => some (.obj [("severity", .str "warning"), ("message", .num 42)]))
        ("id5") ("t5") none [] none).2 = [] :=
  C4_message_type_error _ ("id5") ("t5") none [] none _ rfl (by decide) (by decide)
    (by decide)

/-- Claim C5: when the storage put fails, whatever the failure detail, the
ingest handler returns status 500, success `false`, and only the generic
constant message, with the table state unchanged; the detail never reaches
the response. -/
theorem C5_put_failure_generic (jsonParse : String → Option JsValue)
    (genId now detail : String) (store : Store) (body : Option String)
    (v : JsValue)
    (hparse : jsonParse (effectiveBody body) = some v)
    (hvalid : (validateLogInput v).isValid = true) :
    ingestHandler jsonParse genId now (some detail) store body =
      ({ statusCode := 500, success := false,
         message := some ("Internal server error"),
         logId := none, timestamp := none }, store) := by
  unfold ingestHandler
  rw [hparse]
  simp [hvalid]

/-- Witness for C5 with a concrete infrastructure failure detail. -/
theorem C5_witness :
    ingestHandler
        (fun _ => some (.obj [("severity", .str "error"), ("message", .str "pay failed")]))
        ("id3") ("t3") (some ("StorageUnavailable: endpoint timeout")) demoStore none =
      ({ statusCode := 500, success := false,
         message := some ("Internal server error"),
         logId := none, timestamp := none }, demoStore) :=
  C5_put_failure_generic _ ("id3") ("t3") ("StorageUnavailable: endpoint timeout")
    demoStore none _ rfl (by decide)

/-- Claim C6: when the storage query fails, the recent-records handler still
returns the full well-formed shape: count 0, empty records, an error string,
and a 500 status. -/
theorem C6_read_failure_shape (store : Store) :
    readRecentHandler store false =
      { statusCode := 500, count := 0, logs := [],
        error := some ("Internal server error") } := rfl

/-- Claim C7: against an empty store the recent-records handler succeeds with
status 200, count 0, an empty records list, and no error field. -/
theorem C7_empty_store :
    readRecentHandler [] true =
      { statusCode := 200, count := 0, logs := [], error := none } := by
  simp [readRecentHandler, queryRecent, List.mergeSort_nil]

/-- Claim C8: in every response of the recent-records handler, success or
failure, `count` equals the length of the returned records list. -/
theorem C8_count_eq_length (store : Store) (storageOk : Bool) :
    (readRecentHandler store storageOk).count =
      (readRecentHandler store storageOk).logs.length := by
  cases storageOk <;> simp [readRecentHandler]

/-- Claim C9: the array payload `[]` passes the object check (`typeof` of an
array is `"object"` and arrays are truthy) and fails on the missing severity,
not with the not-an-object error. -/
theorem C9_array_payload :
    validateLogInput (.arr []) =
      { isValid := false, error := some ("Missing required field: severity") } ∧
    (validateLogInput (.arr [])).error ≠
      some ("Request body must be a valid JSON object") := by
  constructor <;> decide

/-- Claim C10: an absent body is treated as the literal empty-object text and
rejected with the missing-severity validation error; a nonempty body that
fails to parse is rejected with the invalid-JSON error; in both cases status
is 400 and the table state is unchanged. -/
theorem C10_body_defaults (jsonParse : String → Option JsValue)
    (genId now : String) (putError : Option String) (store : Store)
    (hbrace : jsonParse ("\x7b\x7d") = some (.obj [])) :
    (ingestHandler jsonParse genId now putError store none =
      ({ statusCode := 400, success := false,
         message := some ("Missing required field: severity"),
         logId := none, timestamp := none }, store)) ∧
    (∀ s : String, s.isEmpty = false → jsonParse s = none →
      ingestHandler jsonParse genId now putError store (some s) =
        ({ statusCode := 400, success := false,
           message := some ("Invalid JSON in request body"),
           logId := none, timestamp := none }, store)) := by
  have hv : validateLogInput (.obj []) =
      { isValid := false, error := some ("Missing required field: severity") } := by
    decide
  constructor
  · have h0 : effectiveBody none = ("\x7b\x7d") := rfl
    unfold ingestHandler
    rw [h0, hbrace]
    simp [hv]
  · intro s hs hp
    have h1 : effectiveBody (some s) = s := by simp [effectiveBody, hs]
    unfold ingestHandler
    rw [h1, hp]

/-- A minimal stand-in for `JSON.parse`, defined on the empty-object text. -/
def demoParse : String → Option JsValue :=
  fun s => if s = ("\x7b\x7d") then some (.obj []) else none

/-- Witness for C10 with a concrete parser, an absent body and an unparseable
body. -/
theorem C10_witness :
    (ingestHandler demoParse ("id4") ("t4") none [] none =
      ({ statusCode := 400, success := false,
         message := some ("Missing required field: severity"),
         logId := none, timestamp := none }, [])) ∧
    (ingestHandler demoParse ("id4") ("t4") none [] (some ("not json")) =
      ({ statusCode := 400, success := false,
         message := some ("Invalid JSON in request body"),
         logId := none, timestamp := none }, [])) :=
  ⟨(C10_body_defaults demoParse ("id4") ("t4") none [] rfl).1,
   (C10_body_defaults demoParse ("id4") ("t4") none [] rfl).2 ("not json") rfl rfl⟩

end LogService
